import Mathlib

/-!
Shallow embedding of the data-access and aggregation layer of the mining
dashboard: the entity models under `models/`, the `DatabaseManager`
repository, `DataController`, `AuthController`, the pie-chart aggregation
loop of `VisualizationController.create_production_by_country_pie_chart`,
and the `mineral_detail` route of `app.py`.

Modelling conventions:
* CSV numeric cells are embedded as `ℤ` (ids, years, tonnes) and `ℚ`
  (monetary values read as floats); text cells as `String`.
* A backing-store snapshot for one entity type is a `List` of raw rows in
  file order.  Where the missing-file behaviour matters
  (`DatabaseManager.load_users` / `get_user_by_username` and the role
  analogues), the store is an `Option (List _)`: `none` is a missing CSV
  file.  A pandas `DataFrame` is modelled by `Frame`: `pd.read_csv` on a
  present file yields a frame that has the schema columns, while the
  `except FileNotFoundError` fallback `pd.DataFrame()` yields a frame with
  no columns at all, so selecting a column of it raises `KeyError`.
  Operations that can raise are embedded in `Except String`.
* `werkzeug.security.check_password_hash` is external; it is passed as a
  `String → String → Bool` parameter `chk` (stored hash, provided password).
* Python dicts with integer keys (the pie-chart accumulator) are
  association lists `List (ℤ × ℤ)` in insertion order, matching dict
  iteration order.
-/

/-- A Python scalar value appearing in a serialized entity dict. -/
inductive PyVal where
  | int (i : ℤ)
  | str (s : String)
  | rat (q : ℚ)
  deriving DecidableEq

/-- A raw row of `users.csv` (columns per the schema contract). -/
structure UserRow where
  UserID : ℤ
  Username : String
  PasswordHash : String
  RoleID : ℤ
  Email : String
  deriving DecidableEq

/-- A raw row of `roles.csv`. -/
structure RoleRow where
  RoleID : ℤ
  RoleName : String
  Permissions : String
  deriving DecidableEq

/-- A raw row of `countries.csv`. -/
structure CountryRow where
  CountryID : ℤ
  CountryName : String
  GDP_BillionUSD : ℚ
  MiningRevenue_BillionUSD : ℚ
  KeyProjects : String
  deriving DecidableEq

/-- A raw row of `minerals.csv`. -/
structure MineralRow where
  MineralID : ℤ
  MineralName : String
  Description : String
  MarketPriceUSD_per_tonne : ℚ
  deriving DecidableEq

/-- A raw row of `production_stats.csv`. -/
structure StatRow where
  StatID : ℤ
  Year : ℤ
  CountryID : ℤ
  MineralID : ℤ
  Production_tonnes : ℤ
  ExportValue_BillionUSD : ℚ
  deriving DecidableEq

/-- `models/user.py` — `User.__init__` stores all five arguments. -/
structure User where
  user_id : ℤ
  username : String
  password_hash : String
  role_id : ℤ
  email : String
  deriving DecidableEq

/-- `models/role.py` — `Role.__init__`. -/
structure Role where
  role_id : ℤ
  role_name : String
  permissions : String
  deriving DecidableEq

/-- `models/country.py` — `Country.__init__`. -/
structure Country where
  country_id : ℤ
  country_name : String
  gdp_billion_usd : ℚ
  mining_revenue_billion_usd : ℚ
  key_projects : String
  deriving DecidableEq

/-- `models/mineral.py` — `Mineral.__init__`. -/
structure Mineral where
  mineral_id : ℤ
  mineral_name : String
  description : String
  market_price_usd_per_tonne : ℚ
  deriving DecidableEq

/-- `models/production_stats.py` — `ProductionStats.__init__`. -/
structure ProductionStats where
  stat_id : ℤ
  year : ℤ
  country_id : ℤ
  mineral_id : ℤ
  production_tonnes : ℤ
  export_value_billion_usd : ℚ
  deriving DecidableEq

/-- `User.to_dict`: keys `user_id`, `username`, `role_id`, `email`; the
stored `password_hash` attribute is not serialized. -/
def User.to_dict (u : User) : List (String × PyVal) :=
  [("user_id", PyVal.int u.user_id),
   ("username", PyVal.str u.username),
   ("role_id", PyVal.int u.role_id),
   ("email", PyVal.str u.email)]

/-- Python `str.split(sep)` for a one-character separator, on the
character list of the string: splitting the empty string gives `[""]`,
and separators at the ends produce empty pieces, as in CPython. -/
def pySplitAux (sep : Char) : List Char → List Char → List String
  | [], acc => [String.mk acc.reverse]
  | c :: rest, acc =>
      if c = sep then String.mk acc.reverse :: pySplitAux sep rest []
      else pySplitAux sep rest (c :: acc)

/-- Python `s.split(sep)` with a single-character separator. -/
def pySplit (sep : Char) (s : String) : List String :=
  pySplitAux sep s.toList []

/-- Python `str.strip()`: drop leading and trailing whitespace. -/
def pyStrip (s : String) : String :=
  String.mk (((s.toList.dropWhile Char.isWhitespace).reverse.dropWhile
    Char.isWhitespace).reverse)

/-- `Role.get_permissions_list`: `if self.permissions:` (non-empty string
is truthy) `return [p.strip() for p in self.permissions.split(',')]`,
else `[]`. -/
def Role.get_permissions_list (r : Role) : List String :=
  if r.permissions ≠ "" then (pySplit ',' r.permissions).map pyStrip
  else []

/-- `Role.has_permission`: Python `permission in permissions_list`,
exact string membership. -/
def Role.has_permission (r : Role) (permission : String) : Bool :=
  (r.get_permissions_list).contains permission

/-- `Country.get_mining_contribution_percentage`:
`if self.gdp_billion_usd > 0: return (rev / gdp) * 100` else `0.0`. -/
def Country.get_mining_contribution_percentage (c : Country) : ℚ :=
  if c.gdp_billion_usd > 0 then
    c.mining_revenue_billion_usd / c.gdp_billion_usd * 100
  else 0

/-- The dict returned by `Country.to_dict` (stored fields plus the
derived percentage). -/
structure CountryDict where
  country_id : ℤ
  country_name : String
  gdp_billion_usd : ℚ
  mining_revenue_billion_usd : ℚ
  key_projects : String
  mining_contribution_pct : ℚ
  deriving DecidableEq

/-- `Country.to_dict`. -/
def Country.to_dict (c : Country) : CountryDict :=
  ⟨c.country_id, c.country_name, c.gdp_billion_usd,
   c.mining_revenue_billion_usd, c.key_projects,
   c.get_mining_contribution_percentage⟩

/-- `ProductionStats.get_average_price_per_tonne`:
`if self.production_tonnes > 0: return (export * 1_000_000_000) / production`
else `0.0`. -/
def ProductionStats.get_average_price_per_tonne (s : ProductionStats) : ℚ :=
  if s.production_tonnes > 0 then
    s.export_value_billion_usd * 1000000000 / (s.production_tonnes : ℚ)
  else 0

/-- The dict returned by `ProductionStats.to_dict`. -/
structure ProductionStatsDict where
  stat_id : ℤ
  year : ℤ
  country_id : ℤ
  mineral_id : ℤ
  production_tonnes : ℤ
  export_value_billion_usd : ℚ
  avg_price_per_tonne : ℚ
  deriving DecidableEq

/-- `ProductionStats.to_dict`. -/
def ProductionStats.to_dict (s : ProductionStats) : ProductionStatsDict :=
  ⟨s.stat_id, s.year, s.country_id, s.mineral_id, s.production_tonnes,
   s.export_value_billion_usd, s.get_average_price_per_tonne⟩

/-- Constructing a `Country` entity from a raw row, as every
`DataController` country operation does field by field. -/
def Country.ofRow (r : CountryRow) : Country :=
  ⟨r.CountryID, r.CountryName, r.GDP_BillionUSD, r.MiningRevenue_BillionUSD,
   r.KeyProjects⟩

/-- Constructing a `Mineral` entity from a raw row. -/
def Mineral.ofRow (r : MineralRow) : Mineral :=
  ⟨r.MineralID, r.MineralName, r.Description, r.MarketPriceUSD_per_tonne⟩

/-- Constructing a `ProductionStats` entity from a raw row. -/
def ProductionStats.ofRow (r : StatRow) : ProductionStats :=
  ⟨r.StatID, r.Year, r.CountryID, r.MineralID, r.Production_tonnes,
   r.ExportValue_BillionUSD⟩

/-- The raw row holding the same fields as an entity (inverse of
`ProductionStats.ofRow`). -/
def ProductionStats.rowOf (s : ProductionStats) : StatRow :=
  ⟨s.stat_id, s.year, s.country_id, s.mineral_id, s.production_tonnes,
   s.export_value_billion_usd⟩

/-- Constructing a `User` entity from a raw row, as
`AuthController.authenticate_user` does. -/
def User.ofRow (r : UserRow) : User :=
  ⟨r.UserID, r.Username, r.PasswordHash, r.RoleID, r.Email⟩

/-- A pandas `DataFrame` as far as this code observes it: whether the
schema columns are present, and the data rows.  `pd.read_csv` on a present
file yields `⟨true, rows⟩`; the `pd.DataFrame()` returned when the file is
missing has no columns: `⟨false, []⟩`. -/
structure Frame (α : Type) where
  hasCols : Bool
  rows : List α
  deriving DecidableEq

namespace DatabaseManager

/-- `DatabaseManager.load_users`: `pd.read_csv` of the users file, or an
empty column-less `DataFrame` when the file is missing
(`except FileNotFoundError`). -/
def load_users (users_csv : Option (List UserRow)) : Frame UserRow :=
  match users_csv with
  | some rows => ⟨true, rows⟩
  | none => ⟨false, []⟩

/-- `DatabaseManager.load_roles`, same pattern as `load_users`. -/
def load_roles (roles_csv : Option (List RoleRow)) : Frame RoleRow :=
  match roles_csv with
  | some rows => ⟨true, rows⟩
  | none => ⟨false, []⟩

/-- `DatabaseManager.get_user_by_username`:
`users_df[users_df['Username'] == username]` then `iloc[0]` of the match
if non-empty, else `None`.  Evaluating `users_df['Username']` on a frame
without that column raises `KeyError`. -/
def get_user_by_username (users_csv : Option (List UserRow))
    (username : String) : Except String (Option UserRow) :=
  let users_df := load_users users_csv
  if users_df.hasCols then
    Except.ok (users_df.rows.find? (fun r => r.Username == username))
  else
    Except.error "KeyError: Username"

/-- `DatabaseManager.get_role_by_id`:
`roles_df[roles_df['RoleID'] == role_id]`, first match or `None`;
raises `KeyError` on the column-less empty frame. -/
def get_role_by_id (roles_csv : Option (List RoleRow))
    (role_id : ℤ) : Except String (Option RoleRow) :=
  let roles_df := load_roles roles_csv
  if roles_df.hasCols then
    Except.ok (roles_df.rows.find? (fun r => r.RoleID == role_id))
  else
    Except.error "KeyError: RoleID"

/-- `DatabaseManager.get_country_by_id` on a present countries file:
filter `CountryID == country_id`, first match or `None`. -/
def get_country_by_id (countries_csv : List CountryRow)
    (country_id : ℤ) : Option CountryRow :=
  countries_csv.find? (fun r => r.CountryID == country_id)

/-- `DatabaseManager.get_mineral_by_id` on a present minerals file. -/
def get_mineral_by_id (minerals_csv : List MineralRow)
    (mineral_id : ℤ) : Option MineralRow :=
  minerals_csv.find? (fun r => r.MineralID == mineral_id)

end DatabaseManager

namespace DataController

/-- `DataController.get_all_countries`: map every row of the countries
file to a `Country` entity, preserving file order. -/
def get_all_countries (countries_csv : List CountryRow) : List Country :=
  countries_csv.map Country.ofRow

/-- `DataController.get_country_by_id`: repository lookup, then entity
construction; `None` propagates. -/
def get_country_by_id (countries_csv : List CountryRow)
    (country_id : ℤ) : Option Country :=
  (DatabaseManager.get_country_by_id countries_csv country_id).map Country.ofRow

/-- `DataController.get_mineral_by_id`. -/
def get_mineral_by_id (minerals_csv : List MineralRow)
    (mineral_id : ℤ) : Option Mineral :=
  (DatabaseManager.get_mineral_by_id minerals_csv mineral_id).map Mineral.ofRow

/-- `DataController.get_all_production_stats`: every row of the
production-stats file as an entity, in file order. -/
def get_all_production_stats (stats_csv : List StatRow) : List ProductionStats :=
  stats_csv.map ProductionStats.ofRow

/-- `DataController.get_production_by_country`:
`stats_df[stats_df['CountryID'] == country_id]`, mapped to entities in
file order. -/
def get_production_by_country (stats_csv : List StatRow)
    (country_id : ℤ) : List ProductionStats :=
  (stats_csv.filter (fun r => r.CountryID == country_id)).map ProductionStats.ofRow

/-- `DataController.get_production_by_mineral`. -/
def get_production_by_mineral (stats_csv : List StatRow)
    (mineral_id : ℤ) : List ProductionStats :=
  (stats_csv.filter (fun r => r.MineralID == mineral_id)).map ProductionStats.ofRow

end DataController

/-- The union, over all known countries, of the per-country production
groups: `get_production_by_country(c)` for each `c` in
`get_all_countries()`, concatenated. -/
def production_by_country_union (countries_csv : List CountryRow)
    (stats_csv : List StatRow) : List ProductionStats :=
  ((DataController.get_all_countries countries_csv).map
    (fun c => DataController.get_production_by_country stats_csv c.country_id)).flatten

namespace AuthController

/-- `AuthController.authenticate_user`: look the user up by username
(which can raise if the users file is missing), return `None` when absent,
verify the password with `check_password_hash` (the external `chk`),
return the populated `User` entity on success and `None` on mismatch. -/
def authenticate_user (chk : String → String → Bool)
    (users_csv : Option (List UserRow)) (username password : String) :
    Except String (Option User) :=
  match DatabaseManager.get_user_by_username users_csv username with
  | Except.error e => Except.error e
  | Except.ok none => Except.ok none
  | Except.ok (some row) =>
      if chk row.PasswordHash password then Except.ok (some (User.ofRow row))
      else Except.ok none

end AuthController

namespace VisualizationController

/-- Python `country_id in country_production` on the accumulator dict. -/
def dict_contains (d : List (ℤ × ℤ)) (k : ℤ) : Bool :=
  d.any (fun p => p.1 == k)

/-- Python `d[k] += v` on a dict holding `k`: add `v` at key `k`. -/
def dict_add (d : List (ℤ × ℤ)) (k : ℤ) (v : ℤ) : List (ℤ × ℤ) :=
  d.map (fun p => if p.1 = k then (p.1, p.2 + v) else p)

/-- One iteration of the aggregation loop in
`create_production_by_country_pie_chart`:
`if country_id not in country_production: country_production[country_id] = 0`
(insertion at the end of the dict), then
`country_production[country_id] += stat.get_production()`. -/
def pie_step (d : List (ℤ × ℤ)) (stat : ProductionStats) : List (ℤ × ℤ) :=
  let d1 := if dict_contains d stat.country_id then d
            else d ++ [(stat.country_id, 0)]
  dict_add d1 stat.country_id stat.production_tonnes

/-- The whole aggregation loop of
`create_production_by_country_pie_chart`: fold `pie_step` over the stats
starting from the empty dict. -/
def aggregate_production_by_country (stats : List ProductionStats) :
    List (ℤ × ℤ) :=
  stats.foldl pie_step []

end VisualizationController

/-- Keys in first-seen order: the first occurrence of each key, in order
of first appearance, skipping keys already seen. -/
def firstSeenAux (seen : List ℤ) : List ℤ → List ℤ
  | [] => []
  | x :: xs =>
      if x ∈ seen then firstSeenAux seen xs
      else x :: firstSeenAux (x :: seen) xs

/-- Total production over the rows of one country group. -/
def sum_production_for (k : ℤ) (stats : List ProductionStats) : ℤ :=
  ((stats.filter (fun s => s.country_id == k)).map
    (fun s => s.production_tonnes)).sum

/-- Specification-side description of the aggregation, following the
spec's words: group the rows by country id, sum `production_tonnes`
within each group, and emit the groups in first-seen-group order. -/
def pie_spec (stats : List ProductionStats) : List (ℤ × ℤ) :=
  (firstSeenAux [] (stats.map (fun s => s.country_id))).map
    (fun k => (k, sum_production_for k stats))

/-- The names defined at module level in `app.py`: the `flask` and
`functools` imports, the three controller classes and their instances,
the `app` object, and the decorated route handlers.  `Mineral` is not
among them — `app.py` never imports the model classes. -/
def app_module_names : List String :=
  ["Flask", "render_template", "request", "redirect", "url_for", "session",
   "flash", "AuthController", "DataController", "VisualizationController",
   "wraps", "app", "auth_controller", "data_controller", "viz_controller",
   "login_required", "index", "login", "logout", "dashboard", "minerals",
   "mineral_detail", "countries", "country_detail", "sites", "admin_users",
   "page_not_found", "internal_server_error", "analytics", "mining_map"]

/-- Evaluating a bare name in the module namespace of `app.py`: a defined
name resolves, an undefined one raises `NameError`. -/
def evalGlobal (n : String) : Except String Unit :=
  if n ∈ app_module_names then Except.ok ()
  else Except.error ("NameError: name " ++ n ++ " is not defined")

/-- The outcome of a request handled by `mineral_detail`. -/
inductive Response where
  | redirected (endpoint : String) (flashed : String)
  | rendered (template : String)
  deriving DecidableEq

namespace App

/-- The `mineral_detail` route of `app.py` (logged-in path): fetch the
mineral, then execute `if Mineral is None:` — which first evaluates the
bare name `Mineral` in the module namespace.  Were that name defined it
would be the model class, which is not `None`, so the not-found branch
(`flash` + `redirect` to `minerals`) would be skipped and the detail
template rendered regardless of the lookup result. -/
def mineral_detail (minerals_csv : List MineralRow) (mineral_id : ℤ) :
    Except String Response :=
  let _mineral := DataController.get_mineral_by_id minerals_csv mineral_id
  match evalGlobal "Mineral" with
  | Except.error e => Except.error e
  | Except.ok _ => Except.ok (Response.rendered "mineral_detail.html")

end App

/-! ## Theorems -/

/-- C5: `Role.has_permission` is a case-sensitive exact membership test on
the comma-delimited permission set: with permissions
`"manage_users, view_reports"`, `has_permission("manage_users")` is true
and `has_permission("Manage_Users")` is false. -/
theorem C5_has_permission_case_sensitive :
    (∀ (r : Role) (p : String),
        r.has_permission p = true ↔ p ∈ r.get_permissions_list) ∧
    (Role.mk 1 "Administrator" "manage_users, view_reports").has_permission
      "manage_users" = true ∧
    (Role.mk 1 "Administrator" "manage_users, view_reports").has_permission
      "Manage_Users" = false := by
  refine ⟨fun r p => ?_, by decide, by decide⟩
  simp [Role.has_permission]

/-- C6: the derived mining-contribution percentage equals
revenue / GDP × 100 when GDP is positive and 0 otherwise; in particular
GDP = 0 gives 0 for any revenue, and GDP = 100, revenue = 25 gives 25. -/
theorem C6_mining_contribution_percentage :
    (∀ c : Country, 0 < c.gdp_billion_usd →
        c.get_mining_contribution_percentage
          = c.mining_revenue_billion_usd / c.gdp_billion_usd * 100) ∧
    (∀ c : Country, c.gdp_billion_usd ≤ 0 →
        c.get_mining_contribution_percentage = 0) ∧
    (∀ r : ℚ,
        (Country.mk 1 "Z" 0 r "x").get_mining_contribution_percentage = 0) ∧
    (Country.mk 1 "Z" 100 25 "x").get_mining_contribution_percentage = 25 := by
  refine ⟨fun c h => ?_, fun c h => ?_, fun r => ?_, ?_⟩
  · simp only [Country.get_mining_contribution_percentage]
    rw [if_pos h]
  · simp only [Country.get_mining_contribution_percentage]
    rw [if_neg (not_lt.mpr h)]
  · simp [Country.get_mining_contribution_percentage]
  · norm_num [Country.get_mining_contribution_percentage]

/-- Witness for C6 at concrete countries: GDP = 50, revenue = 10 gives
10 / 50 × 100 = 20, and a non-positive GDP gives 0. -/
theorem C6_mining_contribution_percentage_witness :
    (Country.mk 5 "W" 50 10 "p").get_mining_contribution_percentage
        = 10 / 50 * 100 ∧
    (Country.mk 6 "V" (-3) 7 "p").get_mining_contribution_percentage = 0 :=
  ⟨C6_mining_contribution_percentage.1 (Country.mk 5 "W" 50 10 "p")
      (by norm_num),
   C6_mining_contribution_percentage.2.1 (Country.mk 6 "V" (-3) 7 "p")
      (by norm_num)⟩

/-- C7: the derived average price per tonne equals
export value × 1e9 / production when production is positive and 0
otherwise; in particular production = 0 gives 0, and export value 2.0
billion USD over 1 000 000 tonnes gives 2000. -/
theorem C7_average_price_per_tonne :
    (∀ s : ProductionStats, 0 < s.production_tonnes →
        s.get_average_price_per_tonne
          = s.export_value_billion_usd * 1000000000 / (s.production_tonnes : ℚ)) ∧
    (∀ s : ProductionStats, s.production_tonnes ≤ 0 →
        s.get_average_price_per_tonne = 0) ∧
    (∀ q : ℚ,
        (ProductionStats.mk 1 2024 1 1 0 q).get_average_price_per_tonne = 0) ∧
    (ProductionStats.mk 1 2024 1 1 1000000 2).get_average_price_per_tonne
      = 2000 := by
  refine ⟨fun s h => ?_, fun s h => ?_, fun q => ?_, ?_⟩
  · simp only [ProductionStats.get_average_price_per_tonne]
    rw [if_pos h]
  · simp only [ProductionStats.get_average_price_per_tonne]
    rw [if_neg (not_lt.mpr h)]
  · simp [ProductionStats.get_average_price_per_tonne]
  · norm_num [ProductionStats.get_average_price_per_tonne]

/-- Witness for C7 at concrete stats: 3 billion USD over 1000 tonnes
gives 3 × 1e9 / 1000, and negative production gives 0. -/
theorem C7_average_price_per_tonne_witness :
    (ProductionStats.mk 9 2023 2 3 1000 3).get_average_price_per_tonne
        = 3 * 1000000000 / (1000 : ℚ) ∧
    (ProductionStats.mk 10 2023 2 3 (-5) 3).get_average_price_per_tonne = 0 :=
  ⟨C7_average_price_per_tonne.1 (ProductionStats.mk 9 2023 2 3 1000 3)
      (by norm_num),
   C7_average_price_per_tonne.2.1 (ProductionStats.mk 10 2023 2 3 (-5) 3)
      (by norm_num)⟩

/-- C8 (evaluation at the failing input): with the users or roles file
missing, `load_users` and `load_roles` do return an empty frame, but the
point lookups `get_user_by_username` and `get_role_by_id` raise
`KeyError` when they select the `Username` / `RoleID` column of the
column-less empty `DataFrame`, instead of returning `None`. -/
theorem C8_missing_store_lookup_raises :
    DatabaseManager.load_users none = Frame.mk false [] ∧
    DatabaseManager.load_roles none = Frame.mk false [] ∧
    DatabaseManager.get_user_by_username none "admin"
      = Except.error "KeyError: Username" ∧
    DatabaseManager.get_role_by_id none 1
      = Except.error "KeyError: RoleID" :=
  ⟨rfl, rfl, rfl, rfl⟩

/-- C2 (evaluation at the failing input): with mineral id 999 absent from
the store, the controller lookup correctly reports absence, but the
`mineral_detail` route raises `NameError` — `app.py` tests
`if Mineral is None:` and never imports `Mineral` — instead of flashing a
not-found message and redirecting. -/
theorem C2_mineral_detail_raises_name_error :
    DataController.get_mineral_by_id [] 999 = none ∧
    App.mineral_detail [] 999
      = Except.error "NameError: name Mineral is not defined" := by
  exact ⟨rfl, rfl⟩

/-- C3: with a stored user store, authentication with a known username but
a wrong password and authentication with an unknown username both return
the same absent value (`None`), so the returned value carries no signal
about which of the two was wrong. -/
theorem C3_auth_failure_indistinguishable :
    ∀ (chk : String → String → Bool) (users : List UserRow)
      (u1 p1 u2 p2 : String),
      (∀ row, users.find? (fun r => r.Username == u1) = some row →
          chk row.PasswordHash p1 = false) →
      users.find? (fun r => r.Username == u2) = none →
      AuthController.authenticate_user chk (some users) u1 p1
          = Except.ok none ∧
      AuthController.authenticate_user chk (some users) u2 p2
          = Except.ok none ∧
      AuthController.authenticate_user chk (some users) u1 p1
          = AuthController.authenticate_user chk (some users) u2 p2 := by
  intro chk users u1 p1 u2 p2 hwrong hnone
  have h1 : AuthController.authenticate_user chk (some users) u1 p1
      = Except.ok none := by
    simp only [AuthController.authenticate_user,
      DatabaseManager.get_user_by_username, DatabaseManager.load_users]
    cases hfind : users.find? (fun r => r.Username == u1) with
    | none => simp [hfind]
    | some row => simp [hfind, hwrong row hfind]
  have h2 : AuthController.authenticate_user chk (some users) u2 p2
      = Except.ok none := by
    simp only [AuthController.authenticate_user,
      DatabaseManager.get_user_by_username, DatabaseManager.load_users]
    simp [hnone]
  exact ⟨h1, h2, h1.trans h2.symm⟩

/-- Witness for C3: a store holding the single user `alice` with stored
hash `"secret"`, a hash check that compares for string equality, the
wrong password `"wrong"` for `alice`, and the unknown username
`"nouser"`. -/
theorem C3_auth_failure_indistinguishable_witness :
    AuthController.authenticate_user (fun stored provided => stored == provided)
        (some [UserRow.mk 1 "alice" "secret" 2 "a@x.com"]) "alice" "wrong"
        = Except.ok none ∧
    AuthController.authenticate_user (fun stored provided => stored == provided)
        (some [UserRow.mk 1 "alice" "secret" 2 "a@x.com"]) "nouser" "whatever"
        = Except.ok none ∧
    AuthController.authenticate_user (fun stored provided => stored == provided)
        (some [UserRow.mk 1 "alice" "secret" 2 "a@x.com"]) "alice" "wrong"
        = AuthController.authenticate_user
            (fun stored provided => stored == provided)
            (some [UserRow.mk 1 "alice" "secret" 2 "a@x.com"]) "nouser" "whatever" :=
  C3_auth_failure_indistinguishable (fun stored provided => stored == provided)
    [UserRow.mk 1 "alice" "secret" 2 "a@x.com"] "alice" "wrong" "nouser" "whatever"
    (by intro row h; cases h; decide) (by decide)

/-- C10: `User.to_dict` serializes exactly the keys `user_id`,
`username`, `role_id`, `email`; its output does not depend on the stored
password hash; and a successful authentication returns the entity with
`password_hash` populated from the backing row. -/
theorem C10_to_dict_omits_password_hash :
    (∀ u : User, (u.to_dict).map Prod.fst
        = ["user_id", "username", "role_id", "email"]) ∧
    (∀ (u : User) (h : String),
        ({ u with password_hash := h } : User).to_dict = u.to_dict) ∧
    (∀ (chk : String → String → Bool) (users : List UserRow)
        (username password : String) (u : User),
        AuthController.authenticate_user chk (some users) username password
            = Except.ok (some u) →
        ∃ row ∈ users, row.Username = username ∧ u = User.ofRow row ∧
          u.password_hash = row.PasswordHash) := by
  refine ⟨fun u => rfl, fun u h => rfl, ?_⟩
  intro chk users username password u hauth
  simp only [AuthController.authenticate_user,
    DatabaseManager.get_user_by_username, DatabaseManager.load_users] at hauth
  cases hfind : users.find? (fun r => r.Username == username) with
  | none => simp [hfind] at hauth
  | some row =>
      simp only [hfind] at hauth
      by_cases hchk : chk row.PasswordHash password = true
      · simp only [hchk, if_true] at hauth
        have hu : u = User.ofRow row := by
          simpa using hauth.symm
        refine ⟨row, List.mem_of_find?_eq_some hfind, ?_, hu, ?_⟩
        · have := List.find?_some hfind
          exact eq_of_beq this
        · rw [hu]; rfl
      · simp [hchk] at hauth

/-- C9: `getById` followed by dict serialization reproduces the stored
field values of the backing row, for countries and minerals looked up by
id, and for every production-stats entity built from its row. -/
theorem C9_get_by_id_to_dict_roundtrip :
    (∀ (countries_csv : List CountryRow) (i : ℤ) (row : CountryRow),
        DatabaseManager.get_country_by_id countries_csv i = some row →
        ∃ c, DataController.get_country_by_id countries_csv i = some c ∧
          c.to_dict.country_id = row.CountryID ∧
          c.to_dict.country_name = row.CountryName ∧
          c.to_dict.gdp_billion_usd = row.GDP_BillionUSD ∧
          c.to_dict.mining_revenue_billion_usd = row.MiningRevenue_BillionUSD ∧
          c.to_dict.key_projects = row.KeyProjects) ∧
    (∀ (minerals_csv : List MineralRow) (i : ℤ) (row : MineralRow),
        DatabaseManager.get_mineral_by_id minerals_csv i = some row →
        ∃ m, DataController.get_mineral_by_id minerals_csv i = some m ∧
          m.mineral_id = row.MineralID ∧
          m.mineral_name = row.MineralName ∧
          m.description = row.Description ∧
          m.market_price_usd_per_tonne = row.MarketPriceUSD_per_tonne) ∧
    (∀ (stats_csv : List StatRow) (s : ProductionStats),
        s ∈ DataController.get_all_production_stats stats_csv →
        ∃ row ∈ stats_csv,
          s.to_dict.stat_id = row.StatID ∧
          s.to_dict.year = row.Year ∧
          s.to_dict.country_id = row.CountryID ∧
          s.to_dict.mineral_id = row.MineralID ∧
          s.to_dict.production_tonnes = row.Production_tonnes ∧
          s.to_dict.export_value_billion_usd = row.ExportValue_BillionUSD) := by
  refine ⟨?_, ?_, ?_⟩
  · intro countries_csv i row h
    exact ⟨Country.ofRow row,
      by simp [DataController.get_country_by_id, h],
      rfl, rfl, rfl, rfl, rfl⟩
  · intro minerals_csv i row h
    exact ⟨Mineral.ofRow row,
      by simp [DataController.get_mineral_by_id, h],
      rfl, rfl, rfl, rfl⟩
  · intro stats_csv s hs
    simp only [DataController.get_all_production_stats, List.mem_map] at hs
    obtain ⟨row, hrow, rfl⟩ := hs
    exact ⟨row, hrow, rfl, rfl, rfl, rfl, rfl, rfl⟩

/-- Witness for C9 on a one-row country store, a one-row mineral store
and a one-row stats store. -/
theorem C9_get_by_id_to_dict_roundtrip_witness :
    (∃ c, DataController.get_country_by_id
          [CountryRow.mk 1 "Zambia" 29 10 "Copperbelt"] 1 = some c ∧
        c.to_dict.country_id = (CountryRow.mk 1 "Zambia" 29 10 "Copperbelt").CountryID ∧
        c.to_dict.country_name = (CountryRow.mk 1 "Zambia" 29 10 "Copperbelt").CountryName ∧
        c.to_dict.gdp_billion_usd = (CountryRow.mk 1 "Zambia" 29 10 "Copperbelt").GDP_BillionUSD ∧
        c.to_dict.mining_revenue_billion_usd
          = (CountryRow.mk 1 "Zambia" 29 10 "Copperbelt").MiningRevenue_BillionUSD ∧
        c.to_dict.key_projects = (CountryRow.mk 1 "Zambia" 29 10 "Copperbelt").KeyProjects) ∧
    (∃ m, DataController.get_mineral_by_id
          [MineralRow.mk 2 "Cobalt" "battery metal" 33000] 2 = some m ∧
        m.mineral_id = (MineralRow.mk 2 "Cobalt" "battery metal" 33000).MineralID ∧
        m.mineral_name = (MineralRow.mk 2 "Cobalt" "battery metal" 33000).MineralName ∧
        m.description = (MineralRow.mk 2 "Cobalt" "battery metal" 33000).Description ∧
        m.market_price_usd_per_tonne
          = (MineralRow.mk 2 "Cobalt" "battery metal" 33000).MarketPriceUSD_per_tonne) ∧
    (∃ row ∈ [StatRow.mk 7 2024 1 2 500 3],
        (ProductionStats.ofRow (StatRow.mk 7 2024 1 2 500 3)).to_dict.stat_id = row.StatID ∧
        (ProductionStats.ofRow (StatRow.mk 7 2024 1 2 500 3)).to_dict.year = row.Year ∧
        (ProductionStats.ofRow (StatRow.mk 7 2024 1 2 500 3)).to_dict.country_id = row.CountryID ∧
        (ProductionStats.ofRow (StatRow.mk 7 2024 1 2 500 3)).to_dict.mineral_id = row.MineralID ∧
        (ProductionStats.ofRow (StatRow.mk 7 2024 1 2 500 3)).to_dict.production_tonnes
          = row.Production_tonnes ∧
        (ProductionStats.ofRow (StatRow.mk 7 2024 1 2 500 3)).to_dict.export_value_billion_usd
          = row.ExportValue_BillionUSD) :=
  ⟨C9_get_by_id_to_dict_roundtrip.1 [CountryRow.mk 1 "Zambia" 29 10 "Copperbelt"] 1
      (CountryRow.mk 1 "Zambia" 29 10 "Copperbelt") (by decide),
   C9_get_by_id_to_dict_roundtrip.2.1 [MineralRow.mk 2 "Cobalt" "battery metal" 33000] 2
      (MineralRow.mk 2 "Cobalt" "battery metal" 33000) (by decide),
   C9_get_by_id_to_dict_roundtrip.2.2 [StatRow.mk 7 2024 1 2 500 3]
      (ProductionStats.ofRow (StatRow.mk 7 2024 1 2 500 3)) (by decide)⟩

/-- Membership in the accumulator dict is membership among its keys. -/
lemma dict_contains_iff (d : List (ℤ × ℤ)) (k : ℤ) :
    VisualizationController.dict_contains d k = true ↔ k ∈ d.map Prod.fst := by
  simp [VisualizationController.dict_contains, List.any_eq_true, List.mem_map]

/-- `dict_add` leaves the key sequence unchanged. -/
lemma keys_dict_add (d : List (ℤ × ℤ)) (k v : ℤ) :
    (VisualizationController.dict_add d k v).map Prod.fst = d.map Prod.fst := by
  simp only [VisualizationController.dict_add, List.map_map]
  apply List.map_congr_left
  intro p _
  simp only [Function.comp]
  by_cases h : p.1 = k <;> simp [h]

/-- Keys emitted by `firstSeenAux` were not seen before. -/
lemma mem_firstSeenAux {x : ℤ} :
    ∀ (l seen : List ℤ), x ∈ firstSeenAux seen l → x ∉ seen := by
  intro l
  induction l with
  | nil => intro seen h; simp [firstSeenAux] at h
  | cons a tl ih =>
      intro seen h
      simp only [firstSeenAux] at h
      by_cases ha : a ∈ seen
      · rw [if_pos ha] at h
        exact ih seen h
      · rw [if_neg ha] at h
        rcases List.mem_cons.mp h with rfl | h2
        · exact ha
        · intro hx
          exact ih (a :: seen) h2 (List.mem_cons_of_mem a hx)

/-- `firstSeenAux` only depends on the seen set up to membership. -/
lemma firstSeenAux_congr :
    ∀ (l s₁ s₂ : List ℤ), (∀ x, x ∈ s₁ ↔ x ∈ s₂) →
      firstSeenAux s₁ l = firstSeenAux s₂ l := by
  intro l
  induction l with
  | nil => intro s₁ s₂ _; rfl
  | cons a tl ih =>
      intro s₁ s₂ hs
      simp only [firstSeenAux]
      by_cases ha : a ∈ s₁
      · rw [if_pos ha, if_pos ((hs a).mp ha)]
        exact ih s₁ s₂ hs
      · rw [if_neg ha, if_neg (fun h => ha ((hs a).mpr h))]
        rw [ih (a :: s₁) (a :: s₂)
          (fun x => by simp only [List.mem_cons]; rw [hs x])]

/-- Group sum over a cons cell. -/
lemma sum_production_for_cons (k : ℤ) (s : ProductionStats)
    (l : List ProductionStats) :
    sum_production_for k (s :: l)
      = (if s.country_id = k then s.production_tonnes else 0)
          + sum_production_for k l := by
  simp only [sum_production_for, List.filter_cons]
  by_cases h : s.country_id = k
  · simp [h]
  · simp [h]

/-- Adding a stat of country `s.country_id` into the dict and then
accounting for the rest of the list is accounting for the whole list. -/
lemma dict_add_map_sum (d : List (ℤ × ℤ)) (s : ProductionStats)
    (tl : List ProductionStats) :
    (VisualizationController.dict_add d s.country_id
        s.production_tonnes).map
        (fun p => (p.1, p.2 + sum_production_for p.1 tl))
      = d.map (fun p => (p.1, p.2 + sum_production_for p.1 (s :: tl))) := by
  simp only [VisualizationController.dict_add, List.map_map]
  apply List.map_congr_left
  intro p _
  simp only [Function.comp]
  by_cases hp : p.1 = s.country_id
  · rw [if_pos hp, sum_production_for_cons, if_pos hp.symm]
    simp [add_assoc]
  · rw [if_neg hp, sum_production_for_cons, if_neg (fun hh => hp hh.symm),
      zero_add]

/-- Invariant of the pie-chart aggregation loop: folding `pie_step` over
the remaining stats adds each group sum to the keys already in the dict
and appends the unseen keys in first-seen order with their group sums. -/
lemma foldl_pie_step :
    ∀ (l : List ProductionStats) (d : List (ℤ × ℤ)),
      l.foldl VisualizationController.pie_step d
        = d.map (fun p => (p.1, p.2 + sum_production_for p.1 l)) ++
            (firstSeenAux (d.map Prod.fst)
                (l.map (fun s => s.country_id))).map
              (fun k => (k, sum_production_for k l)) := by
  intro l
  induction l with
  | nil =>
      intro d
      simp only [List.foldl_nil, List.map_nil, firstSeenAux, List.append_nil]
      conv_rhs => rw [show (fun p : ℤ × ℤ =>
          (p.1, p.2 + sum_production_for p.1 [])) = fun p => p from
        funext fun p => by simp [sum_production_for]]
      rw [List.map_id']
  | cons s tl ih =>
      intro d
      rw [List.foldl_cons, ih (VisualizationController.pie_step d s)]
      by_cases hc : VisualizationController.dict_contains d s.country_id = true
      · have hmem : s.country_id ∈ d.map Prod.fst :=
          (dict_contains_iff d s.country_id).mp hc
        have hstep : VisualizationController.pie_step d s
            = VisualizationController.dict_add d s.country_id
                s.production_tonnes := by
          simp only [VisualizationController.pie_step]
          rw [if_pos hc]
        rw [hstep, keys_dict_add, List.map_cons]
        rw [show firstSeenAux (d.map Prod.fst)
              (s.country_id :: tl.map (fun s => s.country_id))
            = firstSeenAux (d.map Prod.fst)
                (tl.map (fun s => s.country_id)) from by
          simp only [firstSeenAux]
          rw [if_pos hmem]]
        congr 1
        · exact dict_add_map_sum d s tl
        · apply List.map_congr_left
          intro k hk
          have hkj : k ≠ s.country_id :=
            fun he => (mem_firstSeenAux _ _ hk) (he ▸ hmem)
          rw [sum_production_for_cons, if_neg (fun hh => hkj hh.symm),
            zero_add]
      · have hnotmem : s.country_id ∉ d.map Prod.fst :=
          fun h => hc ((dict_contains_iff d s.country_id).mpr h)
        have hstep : VisualizationController.pie_step d s
            = VisualizationController.dict_add (d ++ [(s.country_id, 0)])
                s.country_id s.production_tonnes := by
          simp only [VisualizationController.pie_step]
          rw [if_neg hc]
        have hsplit : VisualizationController.dict_add
              (d ++ [(s.country_id, 0)]) s.country_id s.production_tonnes
            = VisualizationController.dict_add d s.country_id
                s.production_tonnes
              ++ [(s.country_id, 0 + s.production_tonnes)] := by
          simp [VisualizationController.dict_add, List.map_append]
        have hkeys : (VisualizationController.dict_add d s.country_id
                s.production_tonnes
              ++ [(s.country_id, 0 + s.production_tonnes)]).map Prod.fst
            = d.map Prod.fst ++ [s.country_id] := by
          rw [List.map_append, keys_dict_add]
          rfl
        have hseen : firstSeenAux
              ((VisualizationController.dict_add d s.country_id
                  s.production_tonnes
                ++ [(s.country_id, 0 + s.production_tonnes)]).map Prod.fst)
              (tl.map (fun s => s.country_id))
            = firstSeenAux (s.country_id :: d.map Prod.fst)
                (tl.map (fun s => s.country_id)) := by
          rw [hkeys]
          exact firstSeenAux_congr _ _ _ (fun x => by simp [or_comm])
        rw [hstep, hsplit, hseen, List.map_cons]
        rw [show firstSeenAux (d.map Prod.fst)
              (s.country_id :: tl.map (fun s => s.country_id))
            = s.country_id
                :: firstSeenAux (s.country_id :: d.map Prod.fst)
                  (tl.map (fun s => s.country_id)) from by
          simp only [firstSeenAux]
          rw [if_neg hnotmem]]
        rw [List.map_append]
        simp only [List.map_cons, List.map_nil, List.nil_append,
          List.append_assoc, List.singleton_append]
        congr 1
        · exact dict_add_map_sum d s tl
        · congr 1
          · simp [sum_production_for_cons]
          · apply List.map_congr_left
            intro k hk
            have hkj : k ≠ s.country_id := fun he =>
              (mem_firstSeenAux _ _ hk) (he ▸ List.mem_cons_self _ _)
            rw [sum_production_for_cons, if_neg (fun hh => hkj hh.symm),
              zero_add]

/-- C4: the pie-chart aggregation groups the stats by country id, sums
`production_tonnes` within each group, and emits the groups in
first-seen-group order; in particular rows with
(country 1, 100), (country 2, 50), (country 1, 30) yield the sums
130 for country 1 and 50 for country 2, in the order [1, 2]. -/
theorem C4_pie_chart_aggregation :
    (∀ stats : List ProductionStats,
        VisualizationController.aggregate_production_by_country stats
          = pie_spec stats) ∧
    VisualizationController.aggregate_production_by_country
        [ProductionStats.mk 1 2024 1 10 100 0,
         ProductionStats.mk 2 2024 2 10 50 0,
         ProductionStats.mk 3 2024 1 10 30 0]
      = [(1, 130), (2, 50)] := by
  constructor
  · intro stats
    have h := foldl_pie_step stats []
    simpa [VisualizationController.aggregate_production_by_country,
      pie_spec] using h
  · decide

/-- Rebuilding the entity from its own row gives the entity back. -/
lemma ofRow_rowOf (s : ProductionStats) :
    ProductionStats.ofRow s.rowOf = s := rfl

/-- Distinct rows give distinct entities: `ProductionStats.ofRow` keeps
every field. -/
lemma ofRow_injective : Function.Injective ProductionStats.ofRow := by
  intro a b h
  exact congrArg ProductionStats.rowOf h

/-- Counting an entity among mapped rows is counting its row. -/
lemma count_map_ofRow (l : List StatRow) (p : ProductionStats) :
    (l.map ProductionStats.ofRow).count p = l.count p.rowOf := by
  have h := List.count_map_of_injective l ProductionStats.ofRow
    ofRow_injective p.rowOf
  rw [ofRow_rowOf] at h
  exact h

/-- Counting a row in a country-filtered store: the whole count when the
row belongs to that country, zero otherwise. -/
lemma count_filter_country (l : List StatRow) (r : StatRow) (i : ℤ) :
    (l.filter (fun x => x.CountryID == i)).count r
      = if r.CountryID = i then l.count r else 0 := by
  by_cases h : r.CountryID = i
  · rw [if_pos h]
    exact List.count_filter (by simpa using h)
  · rw [if_neg h]
    refine List.count_eq_zero.mpr fun hmem => ?_
    exact h (by simpa using (List.mem_filter.mp hmem).2)

/-- Counting one entity in the union of the per-country groups: the
number of known countries carrying its country id, times the multiplicity
of its row in the stats store. -/
lemma count_union (stats_csv : List StatRow) (p : ProductionStats) :
    ∀ countries_csv : List CountryRow,
      (production_by_country_union countries_csv stats_csv).count p
        = (countries_csv.map (fun c => c.CountryID)).count p.country_id
            * stats_csv.count p.rowOf := by
  intro countries_csv
  induction countries_csv with
  | nil => simp [production_by_country_union, DataController.get_all_countries]
  | cons c tl ih =>
      simp only [production_by_country_union, DataController.get_all_countries,
        List.map_cons, List.flatten_cons] at ih ⊢
      rw [List.count_append, ih]
      rw [show (DataController.get_production_by_country stats_csv
              (Country.ofRow c).country_id).count p
          = if p.country_id = c.CountryID then stats_csv.count p.rowOf
            else 0 from by
        rw [DataController.get_production_by_country, count_map_ofRow,
          count_filter_country]
        rfl]
      rw [List.count_cons]
      by_cases h : p.country_id = c.CountryID
      · rw [if_pos h, if_pos (by simpa using h.symm)]
        ring
      · rw [if_neg h, if_neg (by simpa using fun hh => h hh.symm)]
        ring

/-- C1 as stated is false: with no known countries and one stored
production row, the union over all known countries is empty and the row
is lost (its count drops from 1 to 0). -/
theorem C1_partition_counterexample :
    ¬ (∀ (countries_csv : List CountryRow) (stats_csv : List StatRow)
          (p : ProductionStats),
        (production_by_country_union countries_csv stats_csv).count p
          = (DataController.get_all_production_stats stats_csv).count p) := by
  intro h
  have h0 := h [] [StatRow.mk 1 2024 1 1 100 0]
    (ProductionStats.ofRow (StatRow.mk 1 2024 1 1 100 0))
  revert h0
  decide

/-- C1 amended: provided every stored production row's country id occurs
exactly once among the known countries' ids, the union of the per-country
groups contains every production row with exactly the multiplicity it has
in `get_all_production_stats` — no row lost, none duplicated. -/
theorem C1_partition_amended :
    ∀ (countries_csv : List CountryRow) (stats_csv : List StatRow),
      (∀ r ∈ stats_csv,
          (countries_csv.map (fun c => c.CountryID)).count r.CountryID = 1) →
      ∀ p : ProductionStats,
        (production_by_country_union countries_csv stats_csv).count p
          = (DataController.get_all_production_stats stats_csv).count p := by
  intro cs ss h p
  rw [count_union ss p cs, DataController.get_all_production_stats,
    count_map_ofRow]
  by_cases hp : p.rowOf ∈ ss
  · have h1 : (cs.map (fun c => c.CountryID)).count p.country_id = 1 :=
      h p.rowOf hp
    rw [h1, one_mul]
  · rw [List.count_eq_zero.mpr hp, Nat.mul_zero]

/-- Witness for the amended C1 on a two-country, two-row store. -/
theorem C1_partition_amended_witness :
    (production_by_country_union
        [CountryRow.mk 1 "A" 100 10 "k", CountryRow.mk 2 "B" 50 5 "k"]
        [StatRow.mk 1 2024 1 7 100 0, StatRow.mk 2 2024 2 7 50 0]).count
        (ProductionStats.ofRow (StatRow.mk 1 2024 1 7 100 0))
      = (DataController.get_all_production_stats
          [StatRow.mk 1 2024 1 7 100 0, StatRow.mk 2 2024 2 7 50 0]).count
          (ProductionStats.ofRow (StatRow.mk 1 2024 1 7 100 0)) :=
  C1_partition_amended _ _ (by decide) _

/-- Witness for C10: authenticating `alice` with the right password on a
one-user store returns the entity with `password_hash` populated from the
backing row. -/
theorem C10_to_dict_omits_password_hash_witness :
    ∃ row ∈ [UserRow.mk 1 "alice" "h1" 2 "a@x.com"],
      row.Username = "alice" ∧
      User.mk 1 "alice" "h1" 2 "a@x.com" = User.ofRow row ∧
      (User.mk 1 "alice" "h1" 2 "a@x.com").password_hash = row.PasswordHash :=
  C10_to_dict_omits_password_hash.2.2
    (fun stored provided => stored == provided)
    [UserRow.mk 1 "alice" "h1" 2 "a@x.com"] "alice" "h1"
    (User.mk 1 "alice" "h1" 2 "a@x.com") rfl
